import Mathlib

/-!
Verification of the GameNerd sports-chat microservice
(src/app/api/openai_service.py and src/app/main.py).

The Python code is shallowly embedded: the two model calls are
represented by an explicit `provider : Request → PResult` parameter
(the OpenAI chat-completion endpoint), Python `Optional[str]` becomes
`Option String`, Python dicts holding JSON data become the `Json`
inductive, and `json.loads` is modelled by an executable fuel-based
parser `json_loads` covering the JSON fragment the service exchanges
(objects, arrays, strings with basic escapes, integer numerals,
booleans, null).  Raised exceptions are modelled by `Except` /
`PResult.exn` values.
-/

namespace GameNerd

/-- JSON values, as produced by `json.loads` (Python dict/list/str/int/bool/None). -/
inductive Json where
  | null : Json
  | bool (b : Bool) : Json
  | num (n : Int) : Json
  | str (s : String) : Json
  | arr (items : List Json) : Json
  | obj (fields : List (String × Json)) : Json
deriving Repr

/- ### Small string helpers modelling Python `str` operations -/

/-- Python `str.lower()` for ASCII text (the only text the branch conditions inspect). -/
def pyCharLower (c : Char) : Char :=
  if 'A' ≤ c ∧ c ≤ 'Z' then Char.ofNat (c.toNat + 32) else c

/-- Python `s.lower()`. -/
def pyLower (s : String) : String := ⟨s.data.map pyCharLower⟩

/-- Python `s.startswith(t)`. -/
def pyStartsWith (s t : String) : Bool := t.data.isPrefixOf s.data

/-- Membership of `needle` as a contiguous substring of `hay` (char-list form). -/
def containsSub : List Char → List Char → Bool
  | [], needle => needle.isEmpty
  | h :: t, needle => needle.isPrefixOf (h :: t) || containsSub t needle

/-- Python `needle in hay` on strings. -/
def strContains (hay needle : String) : Bool := containsSub hay.data needle.data

/-- Python `l[-n:]`: the last `n` elements (all of them when fewer). -/
def pyLast (n : Nat) (l : List α) : List α := (l.reverse.take n).reverse

/- ### A fuel-based JSON parser modelling `json.loads` -/

/-- Skip JSON whitespace. -/
def skipWs : List Char → List Char
  | c :: rest =>
    if c = ' ' ∨ c = '\t' ∨ c = '\n' ∨ c = '\r' then skipWs rest else c :: rest
  | [] => []

/-- Decode one string-literal escape character. -/
def escChar : Char → Option Char
  | '"' => some '"'
  | '\\' => some '\\'
  | '/' => some '/'
  | 'b' => some (Char.ofNat 8)
  | 'f' => some (Char.ofNat 12)
  | 'n' => some '\n'
  | 'r' => some '\r'
  | 't' => some '\t'
  | _ => none

/-- Parse the characters of a string literal after the opening quote,
returning the decoded characters and the remainder after the closing quote. -/
def pStrChars : List Char → Option (List Char × List Char)
  | [] => none
  | '"' :: rest => some ([], rest)
  | '\\' :: e :: rest =>
    match escChar e with
    | some c =>
      match pStrChars rest with
      | some (cs, rem) => some (c :: cs, rem)
      | none => none
    | none => none
  | c :: rest =>
    match pStrChars rest with
    | some (cs, rem) => some (c :: cs, rem)
    | none => none

/-- Parse an integer numeral (optional minus sign, then digits). -/
def pNum (cs : List Char) : Option (Int × List Char) :=
  match cs with
  | '-' :: rest =>
    let ds := rest.takeWhile Char.isDigit
    if ds.isEmpty then none
    else some (-(Int.ofNat (ds.foldl (fun a c => a * 10 + (c.toNat - 48)) 0)), rest.drop ds.length)
  | _ =>
    let ds := cs.takeWhile Char.isDigit
    if ds.isEmpty then none
    else some (Int.ofNat (ds.foldl (fun a c => a * 10 + (c.toNat - 48)) 0), cs.drop ds.length)

/-- Parser mode: a value, the items of an array, or the members of an object. -/
inductive PMode where
  | val : PMode
  | arrItems (acc : List Json) : PMode
  | objItems (acc : List (String × Json)) : PMode

/-- Single-step JSON parser, structural on fuel so that it evaluates in the kernel. -/
def pStep : Nat → PMode → List Char → Except String (Json × List Char)
  | 0, _, _ => .error "Out of fuel"
  | fuel + 1, .val, cs =>
    match skipWs cs with
    | [] => .error "Expecting value"
    | c :: rest =>
      if c = 'n' then
        if ['u', 'l', 'l'].isPrefixOf rest then .ok (.null, rest.drop 3)
        else .error "Expecting value"
      else if c = 't' then
        if ['r', 'u', 'e'].isPrefixOf rest then .ok (.bool true, rest.drop 3)
        else .error "Expecting value"
      else if c = 'f' then
        if ['a', 'l', 's', 'e'].isPrefixOf rest then .ok (.bool false, rest.drop 4)
        else .error "Expecting value"
      else if c = '"' then
        match pStrChars rest with
        | some (cs', rem) => .ok (.str ⟨cs'⟩, rem)
        | none => .error "Unterminated string"
      else if c = '[' then
        match skipWs rest with
        | ']' :: rem => .ok (.arr [], rem)
        | _ => pStep fuel (.arrItems []) rest
      else if c = '\x7b' then
        match skipWs rest with
        | '\x7d' :: rem => .ok (.obj [], rem)
        | _ => pStep fuel (.objItems []) rest
      else
        match pNum (c :: rest) with
        | some (n, rem) => .ok (.num n, rem)
        | none => .error "Expecting value"
  | fuel + 1, .arrItems acc, cs =>
    match pStep fuel .val cs with
    | .error e => .error e
    | .ok (v, rest) =>
      match skipWs rest with
      | ',' :: rem => pStep fuel (.arrItems (v :: acc)) rem
      | ']' :: rem => .ok (.arr (v :: acc).reverse, rem)
      | _ => .error "Expecting comma or close bracket"
  | fuel + 1, .objItems acc, cs =>
    match skipWs cs with
    | '"' :: rest =>
      match pStrChars rest with
      | none => .error "Unterminated string"
      | some (kcs, rem1) =>
        match skipWs rem1 with
        | ':' :: rem2 =>
          match pStep fuel .val rem2 with
          | .error e => .error e
          | .ok (v, rest') =>
            match skipWs rest' with
            | ',' :: rem3 => pStep fuel (.objItems ((⟨kcs⟩, v) :: acc)) rem3
            | '\x7d' :: rem3 => .ok (.obj ((⟨kcs⟩, v) :: acc).reverse, rem3)
            | _ => .error "Expecting comma or close brace"
        | _ => .error "Expecting colon"
    | _ => .error "Expecting property name"

/-- Model of Python `json.loads`: parse a complete JSON document
(raising, i.e. `.error`, on malformed input). -/
def json_loads (s : String) : Except String Json :=
  match pStep (2 * s.data.length + 8) .val s.data with
  | .error e => .error e
  | .ok (v, rest) =>
    match skipWs rest with
    | [] => .ok v
    | _ => .error "Extra data"

/- ### The link-stripping safeguard

Model of `re.sub(r'\[(.*?)\]\(http[s]?://.*?\)', r'\1', text)`
(openai_service.py line 201): leftmost scan; at a literal `[`, the lazy
`.*?` takes the first `](` (backtracking to later ones when the URL part
fails) with `.` not matching newline, then `http://` or `https://`, then
the lazy `.*?\)` takes the first `)`; the match is replaced by the link
text (capture group 1) and scanning resumes after the match. -/

/-- After `http[s]?://` has matched: consume lazily up to the first `)`
(`.` does not match a newline). Returns the remainder after the `)`. -/
def findClose : List Char → Option (List Char)
  | [] => none
  | c :: rest =>
    if c = ')' then some rest
    else if c = '\n' then none
    else findClose rest

/-- Match `http[s]?://.*?\)` at the start of `cs`. -/
def tryUrl (cs : List Char) : Option (List Char) :=
  if ['h', 't', 't', 'p', ':', '/', '/'].isPrefixOf cs then findClose (cs.drop 7)
  else if ['h', 't', 't', 'p', 's', ':', '/', '/'].isPrefixOf cs then findClose (cs.drop 8)
  else none

/-- After a `[`: lazily extend the link text (`acc`, reversed) until `](`
followed by a matching URL part; backtrack past a `](` whose URL part fails.
Returns (link text, remainder after the match). -/
def matchAfter : Nat → List Char → List Char → Option (List Char × List Char)
  | 0, _, _ => none
  | fuel + 1, acc, cs =>
    match cs with
    | ']' :: '(' :: rest =>
      match tryUrl rest with
      | some rest' => some (acc.reverse, rest')
      | none => matchAfter fuel (']' :: acc) ('(' :: rest)
    | c :: rest => if c = '\n' then none else matchAfter fuel (c :: acc) rest
    | [] => none

/-- One pass of `re.sub`: scan left to right, replacing each match by its
link text and continuing after the match. -/
def stripCore : Nat → List Char → List Char
  | 0, cs => cs
  | _ + 1, [] => []
  | fuel + 1, c :: rest =>
    if c = '[' then
      match matchAfter (rest.length + 1) [] rest with
      | some (grp, rest') => grp ++ stripCore fuel rest'
      | none => c :: stripCore fuel rest
    else c :: stripCore fuel rest

/-- The link-stripping transform applied to reply text (line 201). -/
def stripLinks (s : String) : String := ⟨stripCore s.data.length s.data⟩

/-- Whether the regex matches anywhere in the text (same scan as `stripCore`). -/
def hasLinkCore : Nat → List Char → Bool
  | 0, _ => false
  | _ + 1, [] => false
  | fuel + 1, c :: rest =>
    if c = '[' then
      match matchAfter (rest.length + 1) [] rest with
      | some _ => true
      | none => hasLinkCore fuel rest
    else hasLinkCore fuel rest

/-- Whether the link pattern occurs in `s`. -/
def hasLink (s : String) : Bool := hasLinkCore s.data.length s.data

/- ### Data model of the service -/

/-- A chat message (Python `{"role": ..., "content": ...}` dict). -/
structure Message where
  role : String
  content : String
deriving DecidableEq, Repr

/-- One tool call in a model response (`tool_call.function.name` /
`tool_call.function.arguments`, the arguments still a raw JSON string). -/
structure ToolCall where
  name : String
  arguments : String
deriving DecidableEq, Repr

/-- The message of the first choice of a provider response.
`content` is `Optional[str]` in the OpenAI types, hence `Option String`;
an absent/None `tool_calls` and an empty list are both falsy in Python,
so both are modelled by `[]`. -/
structure ModelResponse where
  content : Option String
  tool_calls : List ToolCall
deriving DecidableEq, Repr

/-- A chat-completion request as the service builds it
(`client.chat.completions.create(...)` keyword arguments). -/
structure Request where
  model : String
  messages : List Message
  tools : Option (List Json)
  tool_choice : Option String
  temperature : Option ℚ

/-- Outcome of one provider call: a response, or a raised exception
(carrying `str(e)`). -/
inductive PResult where
  | ok (resp : ModelResponse) : PResult
  | exn (msg : String) : PResult

/-- The `ui_data` dict of a result. -/
structure UIData where
  component_type : String
  data : Json
deriving Repr

/-- The dict returned by the service (`{"reply": ..., "ui_data": ...}`). -/
structure ChatResult where
  reply : String
  ui_data : UIData
deriving Repr

/- ### Schema Registry (openai_service.py lines 30-88)

The JSON-schema dicts, embedded verbatim as `Json` values.  Repeated
sub-schemas are factored into helper definitions for readability; the
denoted values are the source dicts unchanged. -/

/-- Shorthand for a schema node with a single "type" field. -/
def tyNode (t : String) : Json := Json.obj [("type", Json.str t)]

/-- Shorthand for a schema node whose "type" is a list of type names. -/
def tyList (ts : List String) : Json :=
  Json.obj [("type", Json.arr (ts.map Json.str))]

/-- The team sub-schema shared by `team1` and `team2` in the H2H schema. -/
def teamNode : Json := Json.obj
  [("type", Json.str "object"),
   ("properties", Json.obj
     [("name", tyNode "string"), ("wins", tyList ["integer", "null"]),
      ("draws", tyList ["integer", "null"]), ("losses", tyList ["integer", "null"]),
      ("goals_for", tyList ["integer", "null"]), ("goals_against", tyList ["integer", "null"])]),
   ("required", Json.arr [Json.str "name"])]

/-- `SCHEMA_DATA_H2H` (lines 30-39). -/
def SCHEMA_DATA_H2H : Json := Json.obj
  [("type", Json.str "object"), ("title", Json.str "H2HData"),
   ("description", Json.str "Data for head-to-head comparisons."),
   ("properties", Json.obj
     [("h2h_summary", Json.obj
       [("type", Json.str "object"),
        ("properties", Json.obj
          [("team1", teamNode), ("team2", teamNode),
           ("total_matches", tyList ["integer", "null"])]),
        ("required", Json.arr [Json.str "team1", Json.str "team2"])]),
      ("recent_meetings", Json.obj
       [("type", Json.str "array"),
        ("items", Json.obj
          [("type", Json.str "object"),
           ("properties", Json.obj
             [("date", Json.obj [("type", Json.str "string"), ("format", Json.str "date")]),
              ("score", tyNode "string"), ("competition", tyNode "string")]),
           ("required", Json.arr [Json.str "date", Json.str "score"])])])]),
   ("required", Json.arr [Json.str "h2h_summary"])]

/-- `SCHEMA_DATA_MATCH_SCHEDULE_TABLE` (lines 40-46). -/
def SCHEMA_DATA_MATCH_SCHEDULE_TABLE : Json := Json.obj
  [("type", Json.str "object"), ("title", Json.str "MatchScheduleTableData"),
   ("description", Json.str "Data for a table of upcoming matches."),
   ("properties", Json.obj
     [("title", tyNode "string"),
      ("headers", Json.obj [("type", Json.str "array"), ("items", tyNode "string")]),
      ("rows", Json.obj
       [("type", Json.str "array"),
        ("items", Json.obj [("type", Json.str "array"), ("items", tyNode "string")])]),
      ("sort_info", tyList ["string", "null"])]),
   ("required", Json.arr [Json.str "headers", Json.str "rows"])]

/-- `SCHEMA_DATA_STANDINGS_TABLE` (lines 47-56). -/
def SCHEMA_DATA_STANDINGS_TABLE : Json := Json.obj
  [("type", Json.str "object"), ("title", Json.str "StandingsTableData"),
   ("description", Json.str "Data for a league standings table."),
   ("properties", Json.obj
     [("league_name", tyNode "string"), ("season", tyList ["string", "null"]),
      ("standings", Json.obj
       [("type", Json.str "array"),
        ("items", Json.obj
          [("type", Json.str "object"),
           ("properties", Json.obj
             [("rank", tyList ["integer", "string"]), ("team_name", tyNode "string"),
              ("logo_url", Json.obj [("type", Json.arr [Json.str "string", Json.str "null"]), ("format", Json.str "uri")]),
              ("played", tyNode "integer"), ("wins", tyNode "integer"),
              ("draws", tyNode "integer"), ("losses", tyNode "integer"),
              ("goals_for", tyNode "integer"), ("goals_against", tyNode "integer"),
              ("goal_difference", tyNode "integer"), ("points", tyNode "integer"),
              ("form", tyList ["string", "null"])]),
           ("required", Json.arr [Json.str "rank", Json.str "team_name", Json.str "played", Json.str "points"])])])]),
   ("required", Json.arr [Json.str "league_name", Json.str "standings"])]

/-- `SCHEMA_DATA_PLAYER_PROFILE` (lines 57-63). -/
def SCHEMA_DATA_PLAYER_PROFILE : Json := Json.obj
  [("type", Json.str "object"), ("title", Json.str "PlayerProfileData"),
   ("description", Json.str "Detailed profile information for a specific player."),
   ("properties", Json.obj
     [("full_name", tyNode "string"), ("common_name", tyList ["string", "null"]),
      ("nationality", tyNode "string"),
      ("date_of_birth", Json.obj [("type", Json.str "string"), ("format", Json.str "date")]),
      ("age", tyNode "integer"), ("primary_position", tyNode "string"),
      ("secondary_positions", Json.obj [("type", Json.str "array"), ("items", tyNode "string")]),
      ("current_club_name", tyList ["string", "null"]),
      ("jersey_number", tyList ["integer", "string", "null"]),
      ("height_cm", tyList ["integer", "null"]), ("weight_kg", tyList ["integer", "null"]),
      ("preferred_foot", Json.obj
        [("type", Json.arr [Json.str "string", Json.str "null"]),
         ("enum", Json.arr [Json.null, Json.str "Right", Json.str "Left", Json.str "Both"])]),
      ("career_summary_stats", Json.obj
        [("type", Json.str "object"),
         ("properties", Json.obj
           [("appearances", tyList ["integer", "null"]), ("goals", tyList ["integer", "null"]),
            ("assists", tyList ["integer", "null"])])]),
      ("market_value", tyList ["string", "null"])]),
   ("required", Json.arr [Json.str "full_name", Json.str "nationality", Json.str "date_of_birth", Json.str "primary_position"])]

/-- `SCHEMA_DATA_TEAM_NEWS` (lines 64-69). -/
def SCHEMA_DATA_TEAM_NEWS : Json := Json.obj
  [("type", Json.str "object"), ("title", Json.str "TeamNewsData"),
   ("description", Json.str "Latest news articles or summaries for a specific team."),
   ("properties", Json.obj
     [("team_name", tyNode "string"),
      ("news_articles", Json.obj
       [("type", Json.str "array"),
        ("items", Json.obj
          [("type", Json.str "object"),
           ("properties", Json.obj
             [("title", tyNode "string"), ("source_name", tyList ["string", "null"]),
              ("published_date", Json.obj [("type", Json.arr [Json.str "string", Json.str "null"]), ("format", Json.str "date-time")]),
              ("url", Json.obj [("type", Json.arr [Json.str "string", Json.str "null"]), ("format", Json.str "uri")]),
              ("summary", tyNode "string")]),
           ("required", Json.arr [Json.str "title", Json.str "summary"])])])]),
   ("required", Json.arr [Json.str "team_name", Json.str "news_articles"])]

/-- One entry of `TOOLS_AVAILABLE` (lines 72-79). -/
def toolEntry (name description : String) (params : Json) : Json :=
  Json.obj [("type", Json.str "function"),
            ("function", Json.obj
              [("name", Json.str name), ("description", Json.str description),
               ("parameters", params)])]

/-- `TOOLS_AVAILABLE` (lines 72-79). -/
def TOOLS_AVAILABLE : List Json :=
  [toolEntry "present_h2h_comparison" "Presents a head-to-head comparison between two teams." SCHEMA_DATA_H2H,
   toolEntry "display_standings_table" "Displays a league standings table." SCHEMA_DATA_STANDINGS_TABLE,
   toolEntry "show_match_schedule" "Shows a schedule of upcoming matches for a specific day or period." SCHEMA_DATA_MATCH_SCHEDULE_TABLE,
   toolEntry "get_player_profile" "Retrieves detailed information about a sports player." SCHEMA_DATA_PLAYER_PROFILE,
   toolEntry "get_team_news" "Fetches latest news articles for a specific sports team." SCHEMA_DATA_TEAM_NEWS]

/-- `TOOL_NAME_TO_COMPONENT_TYPE` (lines 81-88). -/
def TOOL_NAME_TO_COMPONENT_TYPE : List (String × String) :=
  [("present_h2h_comparison", "h2h_comparison_table"),
   ("display_standings_table", "standings_table"),
   ("show_match_schedule", "match_schedule_table"),
   ("get_player_profile", "player_profile_card"),
   ("get_team_news", "news_article_list")]

/-- Python `d.get(k, default)` on the registry dict. -/
def dictGet (d : List (String × String)) (k : String) (dflt : String) : String :=
  match d.lookup k with
  | some v => v
  | none => dflt

/- ### Data Gatherer (openai_service.py lines 92-122) -/

/-- The Gatherer system prompt (lines 98-105; surrounding triple-quote
indentation normalized to plain newlines). -/
def gatherSystemPrompt : String :=
  "You are a highly-capable Sports Information Gatherer.\n" ++
  "Your task is to fully understand the user's query in the context of the conversation history.\n" ++
  "Then, use your search capabilities to find the most relevant, accurate, and up-to-date information.\n" ++
  "Compile all the factual information you find—such as statistics, schedules, player details, team news, head-to-head records, or live scores—into a single, comprehensive text block.\n" ++
  "Do NOT format this as a chat response. Do NOT use tools. Just return the raw, gathered data.\n" ++
  "If the query is conversational (e.g., \"hello\", \"who are you?\", \"thanks\") or clearly out-of-scope (e.g., \"what is the capital of France?\"), state that no data fetching is required."

/-- The request the Gatherer sends (lines 107-115): system prompt, the last
6 history messages, the user query; search-preview model, no tools. -/
def gatherRequest (user_query : String) (conversation_history : List Message) : Request :=
  { model := "gpt-4o-search-preview",
    messages := [⟨"system", gatherSystemPrompt⟩] ++ pyLast 6 conversation_history
                  ++ [⟨"user", user_query⟩],
    tools := none, tool_choice := none, temperature := none }

/-- The error-marker string the Gatherer returns on a raised provider
exception (line 122). -/
def gatherErrorReply (e : String) : String :=
  "Error: Could not gather information due to an internal error: " ++ e

/-- `gather_real_time_data` (lines 92-122).  On success the snippet print
at line 117 slices `gathered_data[:200]` inside the `try`, so when
`response.choices[0].message.content` is null (`None[:200]` raises
`TypeError`) the `except` at line 119 catches it like any other failure;
the function therefore always returns a string: the content when it is
non-null, the "Error:"-marker string otherwise. -/
def gather_real_time_data (user_query : String) (conversation_history : List Message)
    (provider : Request → PResult) : String :=
  match provider (gatherRequest user_query conversation_history) with
  | .ok resp =>
    match resp.content with
    | some c => c
    | none => gatherErrorReply "'NoneType' object is not subscriptable"
  | .exn e => gatherErrorReply e

/- ### Response Composer (openai_service.py lines 125-232) -/

/-- The fixed default reply defined at line 137 (overwritten on every path
that returns). -/
def apologyReply : String :=
  "I'm sorry, I had trouble processing the sports information. Please try rephrasing your request."

/-- The default `ui_data` (line 138). -/
def defaultUI : UIData := ⟨"generic_text", Json.obj []⟩

/-- The branch condition at line 142. -/
def noDataBranch (gathered_data : String) : Bool :=
  strContains (pyLower gathered_data) "no data fetching is required"
    || pyStartsWith gathered_data "Error:"

/-- The tool-attachment condition at lines 191-192: tools (and
`tool_choice="auto"`) are attached iff `"no data fetching"` is NOT a
substring of the lowercased gathered data.  Note this tests a different,
shorter substring than `noDataBranch` and ignores the `Error:` prefix. -/
def attachTools (gathered_data : String) : Bool :=
  !(strContains (pyLower gathered_data) "no data fetching")

/-- The conversational system prompt of the no-data branch (lines 145-151). -/
def convSystemPrompt : String :=
  "You are GameNerd, a friendly and helpful sports AI assistant.\n" ++
  "Based on the user's query and conversation history, provide a direct, conversational response.\n" ++
  "If the user is asking about you, introduce yourself.\n" ++
  "If the query is out of scope, politely state that you only handle sports and gaming topics.\n" ++
  "Do NOT use any tools. Do NOT include markdown links or URLs."

/-- The presentation system prompt of the data branch (lines 158-171). -/
def dataSystemPrompt : String :=
  "You are GameNerd, an expert sports AI assistant.\n" ++
  "Your goal is to present information clearly to the user. You have been provided with a block of raw data.\n\n" ++
  "Your tasks are:\n" ++
  "1. Write a friendly, concise, and helpful text reply to the user's query based on the provided data.\n" ++
  "2. Analyze the provided data and the user's original request.\n" ++
  "3. Select the SINGLE most appropriate tool from the available list to structure the key information for a UI display.\n" ++
  "4. Populate the arguments for your chosen tool completely and accurately using the provided data.\n\n" ++
  "CRITICAL:\n" ++
  "- You MUST call a tool if the query is data-related (schedules, stats, etc.).\n" ++
  "- Your text reply must NOT contain any markdown links or URLs. Mention sources by name only if necessary."

/-- The user content of the data branch (lines 172-181), with the gathered
data embedded verbatim in the delimited block. -/
def dataUserContent (user_query gathered_data : String) : String :=
  "Here is the user's original query: \"" ++ user_query ++ "\"\n\n" ++
  "Here is the raw information I gathered for you:\n<DATA_BLOCK>\n" ++
  gathered_data ++
  "\n</DATA_BLOCK>\n\nNow, please perform your tasks as instructed."

/-- The messages list the Composer sends (lines 141-185). -/
def composerMessages (user_query : String) (conversation_history : List Message)
    (gathered_data : String) : List Message :=
  if noDataBranch gathered_data then
    [⟨"system", convSystemPrompt⟩] ++ pyLast 6 conversation_history ++ [⟨"user", user_query⟩]
  else
    [⟨"system", dataSystemPrompt⟩, ⟨"user", dataUserContent user_query gathered_data⟩]

/-- The request of the Composer model call (lines 188-194). -/
def composerRequest (user_query : String) (conversation_history : List Message)
    (gathered_data : String) : Request :=
  { model := "gpt-4o",
    messages := composerMessages user_query conversation_history gathered_data,
    tools := if attachTools gathered_data then some TOOLS_AVAILABLE else none,
    tool_choice := if attachTools gathered_data then some "auto" else none,
    temperature := some (2 / 10 : ℚ) }

/-- The result built by the `except` block (lines 226-232): the default
response with the reply overwritten by the error text and an "error" key
added to the (still empty) `ui_data.data` dict. -/
def composerExcept (e : String) : ChatResult :=
  { reply := "An unexpected server error occurred while formatting the response: " ++ e,
    ui_data := ⟨"generic_text", Json.obj [("error", Json.str e)]⟩ }

/-- Python truthiness of `response_message.content` (None and "" falsy). -/
def contentTruthy : Option String → Bool
  | none => false
  | some c => !(c == "")

/-- The reply as set by lines 199-201: the link-stripped content when
truthy, otherwise the line-137 default (to be overwritten by the branch). -/
def replyFromContent : Option String → String
  | none => apologyReply
  | some c => if c == "" then apologyReply else stripLinks c

/-- `generate_final_response_with_tools` (lines 125-232).  Every exception
internal to the `try` block — the provider call raising, or `json.loads`
raising on malformed tool arguments — lands in the `except` block. -/
def generate_final_response_with_tools (user_query : String)
    (conversation_history : List Message) (gathered_data : String)
    (provider : Request → PResult) : ChatResult :=
  match provider (composerRequest user_query conversation_history gathered_data) with
  | .exn e => composerExcept e
  | .ok resp =>
    match resp.tool_calls with
    | tool_call :: _ =>
      match json_loads tool_call.arguments with
      | .error e => composerExcept e
      | .ok function_args =>
        { reply := if contentTruthy resp.content then replyFromContent resp.content
                   else "Certainly! Here is the information you requested.",
          ui_data := { component_type := dictGet TOOL_NAME_TO_COMPONENT_TYPE tool_call.name "generic_text",
                       data := function_args } }
    | [] =>
      { reply := if contentTruthy resp.content then replyFromContent resp.content
                 else "I've processed your request.",
        ui_data := defaultUI }

/- ### Orchestrator (openai_service.py lines 235-245) -/

/-- `process_user_query` (lines 235-245): the plain two-step sequence
gather-then-compose.  Both steps catch every exception internally (the
Gatherer always returns a string, the Composer always returns a result
dict), so the function is total: it never raises to its caller. -/
def process_user_query (user_query : String) (conversation_history : List Message)
    (provider : Request → PResult) : ChatResult :=
  generate_final_response_with_tools user_query conversation_history
    (gather_real_time_data user_query conversation_history provider) provider

/- ### History update (main.py lines 42-78) -/

/-- `HISTORY_LIMIT` (main.py line 44). -/
def HISTORY_LIMIT : Nat := 10

/-- The history update of one successful `/chat` request (main.py lines
73-77): append the user turn, append the assistant turn when the reply is
truthy, truncate to the last `HISTORY_LIMIT` entries. -/
def updateHistory (current_history : List Message) (user_query reply : String) : List Message :=
  let h1 := current_history ++ [⟨"user", user_query⟩]
  let h2 := if reply == "" then h1 else h1 ++ [⟨"assistant", reply⟩]
  pyLast HISTORY_LIMIT h2

/-- The stored history of one user after a sequence of chat turns, each
given as (query, reply). -/
def runTurns (current_history : List Message) (turns : List (String × String)) : List Message :=
  turns.foldl (fun h t => updateHistory h t.1 t.2) current_history

/-- The full transcript of a sequence of turns, in (user, assistant) order. -/
def transcript (turns : List (String × String)) : List Message :=
  turns.foldr (fun t acc => ⟨"user", t.1⟩ :: ⟨"assistant", t.2⟩ :: acc) []

/- ### Helper lemmas -/

/-- A string append whose left part is non-empty is non-empty. -/
theorem str_append_ne_empty (s t : String) (h : s.data ≠ []) : s ++ t ≠ "" := by
  intro heq
  have hd : s.data ++ t.data = [] := congrArg String.data heq
  exact h (List.append_eq_nil.mp hd).1

/-- If a list with something appended is a prefix, the list itself is one. -/
theorem isPrefixOf_append_left : ∀ (a b l : List Char),
    (a ++ b).isPrefixOf l = true → a.isPrefixOf l = true := by
  intro a
  induction a with
  | nil => intro b l _; cases l <;> rfl
  | cons x xs ih =>
    intro b l h
    cases l with
    | nil => simp [List.isPrefixOf] at h
    | cons y ys =>
      simp only [List.cons_append, List.isPrefixOf, Bool.and_eq_true] at h ⊢
      exact ⟨h.1, ih b ys h.2⟩

/-- Substring containment of `a ++ b` implies substring containment of `a`. -/
theorem containsSub_append_left : ∀ (hay a b : List Char),
    containsSub hay (a ++ b) = true → containsSub hay a = true := by
  intro hay
  induction hay with
  | nil =>
    intro a b h
    simp only [containsSub, List.isEmpty_iff, List.append_eq_nil] at h
    simp [containsSub, h.1]
  | cons c t ih =>
    intro a b h
    simp only [containsSub, Bool.or_eq_true] at h ⊢
    cases h with
    | inl h => exact Or.inl (isPrefixOf_append_left a b _ h)
    | inr h => exact Or.inr (ih a b h)

/-- The sentinel phrase of line 142 extends the tool-condition phrase of
line 191, so a gathered text containing the former contains the latter. -/
theorem attachTools_eq_false_of_sentinel (g : String)
    (h : strContains (pyLower g) "no data fetching is required" = true) :
    attachTools g = false := by
  have hsplit : ("no data fetching is required").data =
      ("no data fetching").data ++ (" is required").data := by decide
  have : strContains (pyLower g) "no data fetching" = true := by
    unfold strContains at h ⊢
    rw [hsplit] at h
    exact containsSub_append_left _ _ _ h
  simp [attachTools, this]

/-- Every component type the registry lookup can return is non-empty. -/
theorem dictGet_component_ne_empty (n : String) :
    dictGet TOOL_NAME_TO_COMPONENT_TYPE n "generic_text" ≠ "" := by
  unfold dictGet TOOL_NAME_TO_COMPONENT_TYPE
  simp only [List.lookup]
  split
  next v heq =>
    repeat' split at heq
    all_goals intro hv
    all_goals rw [hv] at heq
    all_goals exact absurd heq (by decide)
  next => decide

/-- Where the scan finds no match, one stripping pass is the identity. -/
theorem stripCore_eq_of_no_link : ∀ (fuel : Nat) (cs : List Char),
    hasLinkCore fuel cs = false → stripCore fuel cs = cs := by
  intro fuel
  induction fuel with
  | zero => intro cs _; rfl
  | succ f ih =>
    intro cs h
    cases cs with
    | nil => rfl
    | cons c rest =>
      simp only [hasLinkCore] at h
      simp only [stripCore]
      by_cases hc : c = '['
      · rw [if_pos hc] at h
        rw [if_pos hc]
        cases hm : matchAfter (rest.length + 1) [] rest with
        | some p => rw [hm] at h; simp at h
        | none =>
          rw [hm] at h
          have h' : hasLinkCore f rest = false := h
          show c :: stripCore f rest = c :: rest
          rw [ih rest h']
      · rw [if_neg hc] at h
        rw [if_neg hc]
        rw [ih rest h]

/-- `pyLast` keeps at most `n` elements. -/
theorem pyLast_length (n : Nat) (l : List α) : (pyLast n l).length = min n l.length := by
  simp [pyLast]

/-- Truncating, appending, truncating again equals truncating once at the end. -/
theorem pyLast_append_pyLast (n : Nat) (l m : List α) :
    pyLast n (pyLast n l ++ m) = pyLast n (l ++ m) := by
  unfold pyLast
  rw [List.reverse_append, List.reverse_reverse, List.reverse_append]
  congr 1
  rw [List.take_append_eq_append_take, List.take_append_eq_append_take, List.take_take,
    Nat.min_eq_left (Nat.sub_le _ _)]

/-- Unfolding of `transcript` on a cons. -/
theorem transcript_cons (t : String × String) (ts : List (String × String)) :
    transcript (t :: ts) = ⟨"user", t.1⟩ :: ⟨"assistant", t.2⟩ :: transcript ts := rfl

/-- A transcript of M turns has 2M messages. -/
theorem transcript_length (ts : List (String × String)) :
    (transcript ts).length = 2 * ts.length := by
  induction ts with
  | nil => rfl
  | cons t ts ih =>
    rw [transcript_cons]
    simp only [List.length_cons, ih, List.length_cons]
    ring

/-- A successful turn turns the stored history `pyLast 10 pre` into
`pyLast 10 (pre ++ [user, assistant])`. -/
theorem updateHistory_pyLast (pre : List Message) (q r : String) (hr : r ≠ "") :
    updateHistory (pyLast HISTORY_LIMIT pre) q r =
      pyLast HISTORY_LIMIT (pre ++ [⟨"user", q⟩, ⟨"assistant", r⟩]) := by
  unfold updateHistory
  rw [beq_eq_false_iff_ne.mpr hr]
  simp only [Bool.false_eq_true, if_false]
  rw [List.append_assoc]
  exact pyLast_append_pyLast HISTORY_LIMIT pre _

/-- Running successful turns from a truncated history equals truncating the
full transcript appended to the original prefix. -/
theorem runTurns_pyLast (turns : List (String × String)) :
    ∀ pre : List Message, (∀ t ∈ turns, t.2 ≠ "") →
      runTurns (pyLast HISTORY_LIMIT pre) turns =
        pyLast HISTORY_LIMIT (pre ++ transcript turns) := by
  induction turns with
  | nil => intro pre _; simp [runTurns, transcript]
  | cons t ts ih =>
    intro pre h
    have ht : t.2 ≠ "" := h t (List.mem_cons_self t ts)
    have hts : ∀ u ∈ ts, u.2 ≠ "" := fun u hu => h u (List.mem_cons_of_mem t hu)
    simp only [runTurns, List.foldl_cons]
    rw [updateHistory_pyLast pre t.1 t.2 ht]
    have := ih (pre ++ [⟨"user", t.1⟩, ⟨"assistant", t.2⟩]) hts
    simp only [runTurns] at this
    rw [this, transcript_cons, List.append_assoc]
    rfl

/- ### Claim C1 -/

/-- For any gathered string, the Composer result has a non-empty reply —
provided the model content does not link-strip to the empty string — and
a non-empty component type. -/
theorem composer_fields_nonempty (q : String) (hist : List Message) (g : String)
    (provider : Request → PResult)
    (hstrip : ∀ resp c, provider (composerRequest q hist g) = .ok resp →
      resp.content = some c → c ≠ "" → stripLinks c ≠ "") :
    (generate_final_response_with_tools q hist g provider).reply ≠ "" ∧
    (generate_final_response_with_tools q hist g provider).ui_data.component_type ≠ "" := by
  constructor
  · cases hp : provider (composerRequest q hist g) with
    | exn e =>
      simp only [generate_final_response_with_tools, hp]
      exact str_append_ne_empty _ e (by decide)
    | ok resp =>
      cases htc : resp.tool_calls with
      | nil =>
        simp only [generate_final_response_with_tools, hp, htc]
        cases hc : resp.content with
        | none => decide
        | some c =>
          by_cases hce : c = ""
          · subst hce; decide
          · have ht : contentTruthy (some c) = true := by simp [contentTruthy, hce]
            have hr : replyFromContent (some c) = stripLinks c := by
              simp [replyFromContent, hce]
            simpa [ht, hr] using hstrip resp c hp hc hce
      | cons tc rest =>
        cases hj : json_loads tc.arguments with
        | error e =>
          simp only [generate_final_response_with_tools, hp, htc, hj]
          exact str_append_ne_empty _ e (by decide)
        | ok args =>
          simp only [generate_final_response_with_tools, hp, htc, hj]
          cases hc : resp.content with
          | none => decide
          | some c =>
            by_cases hce : c = ""
            · subst hce; decide
            · have ht : contentTruthy (some c) = true := by simp [contentTruthy, hce]
              have hr : replyFromContent (some c) = stripLinks c := by
                simp [replyFromContent, hce]
              simpa [ht, hr] using hstrip resp c hp hc hce
  · cases hp : provider (composerRequest q hist g) with
    | exn e =>
      simp only [generate_final_response_with_tools, hp]
      show ("generic_text" : String) ≠ ""
      decide
    | ok resp =>
      cases htc : resp.tool_calls with
      | nil =>
        simp only [generate_final_response_with_tools, hp, htc]
        decide
      | cons tc rest =>
        cases hj : json_loads tc.arguments with
        | error e =>
          simp only [generate_final_response_with_tools, hp, htc, hj]
          show ("generic_text" : String) ≠ ""
          decide
        | ok args =>
          simp only [generate_final_response_with_tools, hp, htc, hj]
          exact dictGet_component_ne_empty tc.name

/-- C1 as stated is false: when the Composer model replies with a single
markdown link whose link text is empty, the stripping safeguard at line
201 reduces the (truthy) content to the empty string, so the returned
reply is empty. -/
theorem C1_counterexample :
    process_user_query "hi" []
        (fun req => if req.model = "gpt-4o-search-preview"
          then .ok ⟨some "Arsenal data", []⟩
          else .ok ⟨some "[](http://a)", []⟩)
      = ⟨"", defaultUI⟩ := rfl

/-- C1 amended: `process_user_query` always terminates normally (it is a
total function into ChatResult) and its `ui_data.component_type` is
non-empty; the reply is non-empty provided the Composer model's text
content does not link-strip to the empty string. -/
theorem C1_amended (q : String) (hist : List Message) (provider : Request → PResult)
    (hstrip : ∀ resp c,
      provider (composerRequest q hist (gather_real_time_data q hist provider)) = .ok resp →
      resp.content = some c → c ≠ "" → stripLinks c ≠ "") :
    (process_user_query q hist provider).reply ≠ "" ∧
    (process_user_query q hist provider).ui_data.component_type ≠ "" := by
  unfold process_user_query
  exact composer_fields_nonempty q hist (gather_real_time_data q hist provider) provider hstrip

/-- Witness for C1_amended at a concrete provider. -/
theorem C1_amended_witness :
    (process_user_query "Arsenal next match" []
        (fun req => if req.model = "gpt-4o-search-preview"
          then .ok ⟨some "Arsenal fixture data", []⟩
          else .ok ⟨some "Arsenal play on Saturday.", []⟩)).reply ≠ "" ∧
    (process_user_query "Arsenal next match" []
        (fun req => if req.model = "gpt-4o-search-preview"
          then .ok ⟨some "Arsenal fixture data", []⟩
          else .ok ⟨some "Arsenal play on Saturday.", []⟩)).ui_data.component_type ≠ "" := by
  refine C1_amended "Arsenal next match" []
    (fun req => if req.model = "gpt-4o-search-preview"
      then .ok ⟨some "Arsenal fixture data", []⟩
      else .ok ⟨some "Arsenal play on Saturday.", []⟩) ?_
  intro resp c h1 h2 h3
  have hresp : resp = ⟨some "Arsenal play on Saturday.", []⟩ := by
    have h1' : PResult.ok ⟨some "Arsenal play on Saturday.", []⟩ = PResult.ok resp := h1
    injection h1' with h
    exact h.symm
  rw [hresp] at h2
  injection h2 with h2'
  rw [← h2']
  decide

/- ### Claim C2 -/

/-- C2: the claim is right and the code is wrong.  For gathered data
starting with "Error:" the branch at line 142 does select the
conversational (sentinel) message path, but the tool-attachment condition
at lines 191-192 only tests the substring "no data fetching", so the model
call carries the full tool list and `tool_choice = "auto"` — not the
no-tools call the sentinel case makes — and a tool call in the response
then yields a non-generic `component_type`. -/
theorem C2_error_marker_tools_attached :
    noDataBranch "Error: boom" = true ∧
    (composerRequest "hi" [] "Error: boom").tools = some TOOLS_AVAILABLE ∧
    (composerRequest "hi" [] "Error: boom").tool_choice = some "auto" ∧
    (composerRequest "hi" [] "No data fetching is required.").tools = none ∧
    (generate_final_response_with_tools "hi" [] "Error: boom"
        (fun _ => .ok ⟨none, [⟨"display_standings_table", "\x7b\x7d"⟩]⟩)).ui_data.component_type
      = "standings_table" :=
  ⟨rfl, rfl, rfl, rfl, rfl⟩

/- ### Claim C3 -/

/-- C3: when the gathered data contains the case-insensitive sentinel
"no data fetching is required", the Composer attaches no tool definitions
(and no tool choice), and — the provider honouring a no-tools call with a
tool-call-free response — the resulting `ui_data.component_type` is the
generic default "generic_text". -/
theorem C3_sentinel_no_tools (q : String) (hist : List Message) (g : String)
    (provider : Request → PResult) (resp : ModelResponse)
    (hsent : strContains (pyLower g) "no data fetching is required" = true)
    (hok : provider (composerRequest q hist g) = .ok resp)
    (hnt : resp.tool_calls = []) :
    (composerRequest q hist g).tools = none ∧
    (composerRequest q hist g).tool_choice = none ∧
    (generate_final_response_with_tools q hist g provider).ui_data.component_type
      = "generic_text" := by
  have hat : attachTools g = false := attachTools_eq_false_of_sentinel g hsent
  refine ⟨?_, ?_, ?_⟩
  · simp [composerRequest, hat]
  · simp [composerRequest, hat]
  · simp only [generate_final_response_with_tools, hok, hnt]
    rfl

/-- Witness for C3_sentinel_no_tools at a concrete provider. -/
theorem C3_witness :
    (composerRequest "hello" [] "No data fetching is required.").tools = none ∧
    (composerRequest "hello" [] "No data fetching is required.").tool_choice = none ∧
    (generate_final_response_with_tools "hello" [] "No data fetching is required."
        (fun _ => .ok ⟨some "Hi, I am GameNerd!", []⟩)).ui_data.component_type
      = "generic_text" :=
  C3_sentinel_no_tools "hello" [] "No data fetching is required."
    (fun _ => .ok ⟨some "Hi, I am GameNerd!", []⟩) ⟨some "Hi, I am GameNerd!", []⟩
    (by decide) rfl rfl

/- ### Claim C4 -/

/-- C4: a model response whose (first) tool call has name X and
well-formed JSON-object arguments A yields
`ui_data = ⟨registry lookup of X (default "generic_text"), A⟩` exactly. -/
theorem C4_tool_call_round_trip (q : String) (hist : List Message) (g : String)
    (provider : Request → PResult) (resp : ModelResponse) (tc : ToolCall)
    (rest : List ToolCall) (fields : List (String × Json))
    (hok : provider (composerRequest q hist g) = .ok resp)
    (htc : resp.tool_calls = tc :: rest)
    (hargs : json_loads tc.arguments = .ok (Json.obj fields)) :
    (generate_final_response_with_tools q hist g provider).ui_data =
      ⟨dictGet TOOL_NAME_TO_COMPONENT_TYPE tc.name "generic_text", Json.obj fields⟩ := by
  simp only [generate_final_response_with_tools, hok, htc, hargs]

/-- Witness for C4_tool_call_round_trip at a concrete response. -/
theorem C4_witness :
    (generate_final_response_with_tools "Show me the EPL table" [] "Standings data"
      (fun _ => .ok ⟨some "Here is the table.",
        [⟨"display_standings_table", "\x7b\"league_name\": \"EPL\"\x7d"⟩]⟩)).ui_data =
    ⟨"standings_table", Json.obj [("league_name", Json.str "EPL")]⟩ :=
  C4_tool_call_round_trip "Show me the EPL table" [] "Standings data" _
    ⟨some "Here is the table.", [⟨"display_standings_table", "\x7b\"league_name\": \"EPL\"\x7d"⟩]⟩
    ⟨"display_standings_table", "\x7b\"league_name\": \"EPL\"\x7d"⟩ []
    [("league_name", Json.str "EPL")] rfl rfl rfl

/- ### Claim C5 -/

/-- C5 as stated is false: on a provider failure the Composer's reply is
not the fixed line-137 apology (the except block at line 230 overwrites it
with an error-specific message). -/
theorem C5_counterexample :
    (generate_final_response_with_tools "q" [] "Premier League standings data"
        (fun _ => .exn "boom")).reply ≠
      "I'm sorry, I had trouble processing the sports information. Please try rephrasing your request." := by
  decide

/-- C5 amended: on any provider failure during the Composer's model call the
Composer returns (does not propagate) the default error ChatResult: the
fixed prefix "An unexpected server error occurred while formatting the
response: " followed by the failure description, with generic `ui_data`
whose data holds the failure description under "error". -/
theorem C5_amended (q : String) (hist : List Message) (g : String)
    (provider : Request → PResult) (e : String)
    (h : provider (composerRequest q hist g) = .exn e) :
    generate_final_response_with_tools q hist g provider =
      { reply := "An unexpected server error occurred while formatting the response: " ++ e,
        ui_data := ⟨"generic_text", Json.obj [("error", Json.str e)]⟩ } := by
  simp only [generate_final_response_with_tools, h]
  rfl

/-- Witness for C5_amended at a concrete failure. -/
theorem C5_witness :
    generate_final_response_with_tools "q" [] "data" (fun _ => .exn "connection reset") =
      { reply := "An unexpected server error occurred while formatting the response: connection reset",
        ui_data := ⟨"generic_text", Json.obj [("error", Json.str "connection reset")]⟩ } :=
  C5_amended "q" [] "data" (fun _ => .exn "connection reset") "connection reset" rfl

/- ### Claim C6 -/

/-- C6: a single tool call with malformed arguments does not raise out of
the Composer; `json.loads` raising lands in the same except block as a
provider failure, producing the identical default error ChatResult. -/
theorem C6_malformed_args (q : String) (hist : List Message) (g : String)
    (provider : Request → PResult) (resp : ModelResponse) (tc : ToolCall) (e : String)
    (hok : provider (composerRequest q hist g) = .ok resp)
    (htc : resp.tool_calls = [tc])
    (hbad : json_loads tc.arguments = .error e) :
    generate_final_response_with_tools q hist g provider = composerExcept e ∧
    generate_final_response_with_tools q hist g (fun _ => .exn e) = composerExcept e := by
  constructor
  · simp only [generate_final_response_with_tools, hok, htc, hbad]
  · rfl

/-- Witness for C6_malformed_args at a concrete malformed argument string. -/
theorem C6_witness :
    generate_final_response_with_tools "q" [] "schedule data"
        (fun _ => .ok ⟨some "Sure!", [⟨"show_match_schedule", "not json"⟩]⟩) =
      composerExcept "Expecting value" ∧
    generate_final_response_with_tools "q" [] "schedule data"
        (fun _ => .exn "Expecting value") =
      composerExcept "Expecting value" :=
  C6_malformed_args "q" [] "schedule data"
    (fun _ => .ok ⟨some "Sure!", [⟨"show_match_schedule", "not json"⟩]⟩)
    ⟨some "Sure!", [⟨"show_match_schedule", "not json"⟩]⟩
    ⟨"show_match_schedule", "not json"⟩ "Expecting value" rfl rfl rfl

/- ### Claim C7 -/

/-- C7: the Gatherer always returns a string (the embedding is a total
function into String) and never propagates: a raised provider exception is
caught and converted to the "Error:"-prefixed marker; a null-content
success is likewise converted to the marker, because the snippet print at
line 117 raises `TypeError` inside the `try`; a non-null content is
returned unchanged; and every marker starts with "Error:". -/
theorem C7_gatherer_returns_string (q : String) (hist : List Message)
    (provider : Request → PResult) :
    (∀ e, provider (gatherRequest q hist) = .exn e →
      gather_real_time_data q hist provider = gatherErrorReply e) ∧
    (∀ resp, provider (gatherRequest q hist) = .ok resp → resp.content = none →
      gather_real_time_data q hist provider =
        gatherErrorReply "'NoneType' object is not subscriptable") ∧
    (∀ resp c, provider (gatherRequest q hist) = .ok resp → resp.content = some c →
      gather_real_time_data q hist provider = c) ∧
    (∀ e, pyStartsWith (gatherErrorReply e) "Error:" = true) := by
  refine ⟨?_, ?_, ?_, ?_⟩
  · intro e he
    unfold gather_real_time_data
    rw [he]
  · intro resp hr hc
    simp only [gather_real_time_data, hr, hc]
  · intro resp c hr hc
    simp only [gather_real_time_data, hr, hc]
  · intro e
    rfl

/-- Witness for C7_gatherer_returns_string at a concrete failing provider. -/
theorem C7_witness :
    gather_real_time_data "hi" [] (fun _ => .exn "timeout") = gatherErrorReply "timeout" ∧
    pyStartsWith (gatherErrorReply "timeout") "Error:" = true :=
  ⟨(C7_gatherer_returns_string "hi" [] (fun _ => .exn "timeout")).1 "timeout" rfl,
   (C7_gatherer_returns_string "hi" [] (fun _ => .exn "timeout")).2.2.2 "timeout"⟩

/- ### Claim C8 -/

/-- C8 as stated is false: stripping can uncover a new link (here a nested
one), so a second application strips further. -/
theorem C8_counterexample :
    stripLinks (stripLinks "[[a](http://x)](http://y)") ≠
      stripLinks "[[a](http://x)](http://y)" := by
  decide

/-- C8 amended: the transform is idempotent on every input whose first
pass leaves no remaining link match (in general a second application may
strip links uncovered by the first). -/
theorem C8_amended (s : String) (h : hasLink (stripLinks s) = false) :
    stripLinks (stripLinks s) = stripLinks s := by
  have h2 : stripCore (stripLinks s).data.length (stripLinks s).data = (stripLinks s).data :=
    stripCore_eq_of_no_link _ _ h
  show String.mk (stripCore (stripLinks s).data.length (stripLinks s).data) = stripLinks s
  rw [h2]

/-- Witness for C8_amended at a concrete input. -/
theorem C8_witness :
    hasLink (stripLinks "[a](http://x) ok") = false ∧
    stripLinks (stripLinks "[a](http://x) ok") = stripLinks "[a](http://x) ok" :=
  ⟨by decide, C8_amended "[a](http://x) ok" (by decide)⟩

/- ### Claim C9 -/

/-- C9: after M successful chat turns (M > N/2, cap N = 10, every reply
non-empty) the stored history is exactly the last N messages of the full
transcript — the most recent turns in original order (FIFO eviction) —
and its length is min(2M, N), never exceeding N. -/
theorem C9_history_bounded_fifo (turns : List (String × String))
    (hr : ∀ t ∈ turns, t.2 ≠ "") (hM : 5 < turns.length) :
    runTurns [] turns = pyLast HISTORY_LIMIT (transcript turns) ∧
    (runTurns [] turns).length = min (2 * turns.length) HISTORY_LIMIT := by
  have hmain : runTurns [] turns = pyLast HISTORY_LIMIT (transcript turns) := by
    have := runTurns_pyLast turns [] hr
    simpa using this
  refine ⟨hmain, ?_⟩
  rw [hmain, pyLast_length, transcript_length, Nat.min_comm]

/-- Witness for C9_history_bounded_fifo at six concrete turns. -/
theorem C9_witness :
    runTurns [] [("q1", "r1"), ("q2", "r2"), ("q3", "r3"), ("q4", "r4"), ("q5", "r5"), ("q6", "r6")] =
      pyLast HISTORY_LIMIT (transcript
        [("q1", "r1"), ("q2", "r2"), ("q3", "r3"), ("q4", "r4"), ("q5", "r5"), ("q6", "r6")]) ∧
    (runTurns [] [("q1", "r1"), ("q2", "r2"), ("q3", "r3"), ("q4", "r4"), ("q5", "r5"), ("q6", "r6")]).length =
      min (2 * 6) HISTORY_LIMIT :=
  C9_history_bounded_fifo
    [("q1", "r1"), ("q2", "r2"), ("q3", "r3"), ("q4", "r4"), ("q5", "r5"), ("q6", "r6")]
    (by decide) (by decide)

/- ### Claim C10 -/

/-- C10: only the first tool call of the response affects the result; any
further tool calls are ignored entirely. -/
theorem C10_first_tool_call_only (q : String) (hist : List Message) (g : String)
    (content : Option String) (tc : ToolCall) (rest : List ToolCall) :
    generate_final_response_with_tools q hist g (fun _ => .ok ⟨content, tc :: rest⟩) =
      generate_final_response_with_tools q hist g (fun _ => .ok ⟨content, [tc]⟩) := rfl

end GameNerd
